import Mathlib

/-!
Verification development for the aws-sagemaker-data-platform repository.

The repository is a batch ML pipeline: a preprocessing script
(`sagemaker-scripts/experiment-pipeline/preprocessing/preprocessing.py`)
engineers features and labels users, a training script
(`training/train.py`) fits a scikit-learn `Pipeline` bundling the custom
`FeatureEngineeringTransformer` with a classifier, an inference script
(`inference/inference.py`) validates requests, scores them, and assigns
experiments, and a Glue ETL script (`scripts/glue-etl/sample-etl.py`)
cleans and enriches a sales table.

This file shallowly embeds those components: pandas/numpy columns become
lists of rationals, DataFrame rows become structures, elementwise pandas
operations become `List.map`, fallible steps return `Option`/`Except`.
sklearn internals that the spec declares out of scope (the standard
deviation used by `StandardScaler`, the tree ensemble of
`RandomForestClassifier`) are taken as parameters rather than re-derived.
-/

namespace DataPlatform

/-- One row of the raw user-bucketing dataset: the ten base features
selected in `preprocess_data` (`base_features`) and required by
`input_fn` (`required_raw_features`). Numeric columns are rationals,
categorical columns strings. -/
structure RawRow where
  age : ℚ
  session_count : ℚ
  avg_session_duration : ℚ
  page_views : ℚ
  purchase_history : ℚ
  total_spent : ℚ
  engagement_score : ℚ
  historical_conversion_rate : ℚ
  gender : String
  location : String
  deriving Repr, DecidableEq, Inhabited

/-- pandas `Series.quantile(q)` with the default linear interpolation:
sort the values, take position `q * (n - 1)`, and interpolate linearly
between the neighbouring order statistics. On an empty series pandas
returns NaN; we return 0 there (no claim touches that case). -/
def quantile (q : ℚ) (xs : List ℚ) : ℚ :=
  let s := List.insertionSort (· ≤ ·) xs
  if s.length = 0 then 0
  else
    let h : ℚ := q * ((s.length : ℚ) - 1)
    let i : ℕ := (⌊h⌋).toNat
    let lo := s.getD i 0
    let hi := s.getD (i + 1) lo
    lo + (h - (i : ℚ)) * (hi - lo)

/-- The high-value flag of a single row given the two batch quantiles,
as in `preprocessing.py`:
`(engagement_score > quantile(0.7)) & (total_spent > quantile(0.6))`,
cast to int. -/
def highValueFlag (qE qT : ℚ) (r : RawRow) : ℕ :=
  if r.engagement_score > qE ∧ r.total_spent > qT then 1 else 0

/-- The `high_value_user` label column computed by `preprocess_data`
(lines 145-148) on the loaded dataset: the elementwise conjunction of
the two strict quantile comparisons, cast to int. -/
def highValueLabels (df : List RawRow) : List ℕ :=
  let qE := quantile (7/10) (df.map RawRow.engagement_score)
  let qT := quantile (6/10) (df.map RawRow.total_spent)
  df.map (highValueFlag qE qT)

/-- C1: for every row of the loaded dataset, the training label is 1
iff the row's engagement_score strictly exceeds the 0.7 quantile of the
engagement_score column and its total_spent strictly exceeds the 0.6
quantile of the total_spent column; every other row is labelled 0. -/
theorem c1_high_value_label (df : List RawRow) (i : ℕ) (h : i < df.length) :
    (highValueLabels df).getD i 0 = 1 ↔
      ((df.getD i default).engagement_score >
          quantile (7/10) (df.map RawRow.engagement_score) ∧
        (df.getD i default).total_spent >
          quantile (6/10) (df.map RawRow.total_spent)) := by
  have hlen : (highValueLabels df).length = df.length := by
    simp [highValueLabels]
  unfold highValueLabels
  rw [List.getD_eq_getElem _ _ (by simpa [highValueLabels] using h),
    List.getD_eq_getElem _ _ h]
  simp only [List.getElem_map]
  unfold highValueFlag
  split <;> simp_all

/-- Sample row used in closed witnesses. -/
def rowA : RawRow :=
  { age := 30, session_count := 4, avg_session_duration := 100,
    page_views := 12, purchase_history := 2, total_spent := 80,
    engagement_score := 9/10, historical_conversion_rate := 1/5,
    gender := "F", location := "US" }

/-- Second sample row used in closed witnesses. -/
def rowB : RawRow :=
  { age := 60, session_count := 1, avg_session_duration := 30,
    page_views := 2, purchase_history := 0, total_spent := 10,
    engagement_score := 1/10, historical_conversion_rate := 0,
    gender := "M", location := "UK" }

/-- Labels passed to `pd.cut` for the age buckets. -/
def ageLabels : List String := ["young", "adult", "middle_aged", "senior"]

/-- Labels passed to `pd.cut` for the spending tiers. -/
def spendingLabels : List String := ["none", "low", "medium", "high"]

/-- The constant `[0, 25, 35, 50, 100]` assigned to `self.age_bins` in
`_create_engineered_features`. -/
def defaultAgeBins : List ℚ := [0, 25, 35, 50, 100]

/-- The finite prefix of the constant `[-1, 0, 50, 200, np.inf]`
assigned to `self.spending_bins`; the trailing `np.inf` makes the last
bucket unbounded above, which `cutBinsTop` encodes directly. -/
def defaultSpendingBins : List ℚ := [-1, 0, 50, 200]

/-- pandas `pd.cut(x, bins, labels)` for one value: the label of the
half-open interval `(bins[i], bins[i+1]]` containing `x`, or `none`
(pandas NaN) when `x` falls outside every interval. -/
def cutBins (x : ℚ) : List ℚ → List String → Option String
  | b1 :: b2 :: bs, l :: ls =>
    if b1 < x ∧ x ≤ b2 then some l else cutBins x (b2 :: bs) ls
  | _, _ => none

/-- pandas `pd.cut` with a final `np.inf` boundary: as `cutBins`, but
the last bucket `(bins.last, ∞)` is unbounded above. -/
def cutBinsTop (x : ℚ) : List ℚ → List String → Option String
  | [b1], [l] => if b1 < x then some l else none
  | b1 :: b2 :: bs, l :: ls =>
    if b1 < x ∧ x ≤ b2 then some l else cutBinsTop x (b2 :: bs) ls
  | _, _ => none

/-- A row after `_create_engineered_features`: the raw columns plus the
high-value flag, the ratio features, and the two bucket columns
(`none` models a pandas NaN category). -/
structure EngineeredRow where
  raw : RawRow
  high_value_user : ℕ
  spend_per_purchase : ℚ
  session_efficiency : ℚ
  age_group : Option String
  spending_tier : Option String
  deriving Repr, DecidableEq

/-- `np.where(purchase_history > 0, total_spent / purchase_history, 0)`. -/
def spendPerPurchase (r : RawRow) : ℚ :=
  if r.purchase_history > 0 then r.total_spent / r.purchase_history else 0

/-- `page_views / np.maximum(session_count, 1)`. -/
def sessionEfficiency (r : RawRow) : ℚ :=
  r.page_views / max r.session_count 1

/-- `_create_engineered_features` on one row, given the two batch
quantiles (for the high-value flag) and the resolved bin lists. -/
def engineerRow (qE qT : ℚ) (ageBins spendingBins : List ℚ) (r : RawRow) :
    EngineeredRow :=
  { raw := r
    high_value_user := highValueFlag qE qT r
    spend_per_purchase := spendPerPurchase r
    session_efficiency := sessionEfficiency r
    age_group := cutBins r.age ageBins ageLabels
    spending_tier := cutBinsTop r.total_spent spendingBins spendingLabels }

/-- `_create_engineered_features` on a whole DataFrame: the high-value
flag uses the 0.7/0.6 quantiles of this batch; all other columns are
elementwise. -/
def engineerBatch (ageBins spendingBins : List ℚ) (X : List RawRow) :
    List EngineeredRow :=
  let qE := quantile (7/10) (X.map RawRow.engagement_score)
  let qT := quantile (6/10) (X.map RawRow.total_spent)
  X.map (engineerRow qE qT ageBins spendingBins)

/-- `str(x)` applied to a possibly-NaN pandas category: `astype(str)`
turns a NaN category into the literal string "nan". -/
def optToStr (o : Option String) : String := o.getD "nan"

/-- `LabelEncoder.fit`: the fitted `classes_` are the sorted distinct
values of the column (numpy `np.unique`). -/
def leFit (xs : List String) : List String :=
  List.insertionSort (· ≤ ·) xs.dedup

/-- `LabelEncoder.transform` on one value: its index in `classes_`, or
`none` modelling the ValueError sklearn raises on an unseen label. -/
def leTransform (classes : List String) (x : String) : Option ℕ :=
  if x ∈ classes then some (classes.indexOf x) else none

/-- The lambda of `_encode_features`:
`le.transform([x])[0] if x in le.classes_ else le.transform([le.classes_[0]])[0]`.
The fallback indexes `classes_[0]`, which fails (`none`) only when the
fitted class list is empty. -/
def leEncodeSafe (classes : List String) (x : String) : Option ℕ :=
  match leTransform classes x with
  | some c => some c
  | none => classes.head?.bind (fun c0 => leTransform classes c0)

/-- The fitted state of `FeatureEngineeringTransformer`: the four label
encoders, the `StandardScaler` parameters (per-column mean and scale
over `feature_columns`), and the two resolved bin lists. -/
structure FittedTransformer where
  genderClasses : List String
  locationClasses : List String
  ageGroupClasses : List String
  spendingTierClasses : List String
  featureMean : List ℚ
  featureScale : List ℚ
  ageBins : List ℚ
  spendingBins : List ℚ
  deriving Repr, DecidableEq, Inhabited

/-- The selection `X_encoded[self.feature_columns]` of one row, in the
exact order of `feature_columns`; `fillna(0)` is the identity here
because every modelled value is a rational. -/
def selectFeatures (er : EngineeredRow) (g l a t : ℕ) : List ℚ :=
  [er.raw.age, er.raw.session_count, er.raw.avg_session_duration,
    er.raw.page_views, er.raw.purchase_history, er.raw.total_spent,
    er.raw.engagement_score, er.raw.historical_conversion_rate,
    er.spend_per_purchase, er.session_efficiency,
    (g : ℚ), (l : ℚ), (a : ℚ), (t : ℚ)]

/-- `_encode_features` followed by the `feature_columns` selection on
one engineered row: encode the four categorical columns with the
unseen-category fallback and build the 14-entry feature vector. -/
def unscaledRow (gc lc ac tc : List String) (er : EngineeredRow) :
    Option (List ℚ) := do
  let g ← leEncodeSafe gc er.raw.gender
  let l ← leEncodeSafe lc er.raw.location
  let a ← leEncodeSafe ac (optToStr er.age_group)
  let t ← leEncodeSafe tc (optToStr er.spending_tier)
  pure (selectFeatures er g l a t)

/-- Elementwise application of a fallible function to a column, as a
pandas `apply` whose raised exception propagates. -/
def mapOption (f : α → Option β) : List α → Option (List β)
  | [] => some []
  | a :: as =>
    match f a, mapOption f as with
    | some b, some bs => some (b :: bs)
    | _, _ => none

/-- Arithmetic mean of a column (`StandardScaler.mean_`). -/
def columnMean (xs : List ℚ) : ℚ := xs.sum / xs.length

/-- The `feature_columns` list fixed in `fit`, in source order. -/
def featureColumns : List String :=
  ["age", "session_count", "avg_session_duration", "page_views",
    "purchase_history", "total_spent", "engagement_score",
    "historical_conversion_rate", "spend_per_purchase",
    "session_efficiency", "gender_encoded", "location_encoded",
    "age_group_encoded", "spending_tier_encoded"]

/-- Per-column means of the sample matrix: for each of the 14 feature
columns, the mean of that column (`StandardScaler.fit` computing
`mean_`). -/
def columnMeans (vecs : List (List ℚ)) : List ℚ :=
  (List.range featureColumns.length).map
    (fun j => columnMean (vecs.map (fun v => v.getD j 0)))

/-- `StandardScaler.transform` on one feature vector:
`(x - mean_) / scale_` componentwise against the fitted parameters. -/
def scaleRow (s : FittedTransformer) (v : List ℚ) : List ℚ :=
  (v.zip (s.featureMean.zip s.featureScale)).map
    (fun p => (p.1 - p.2.1) / p.2.2)

/-- `FeatureEngineeringTransformer.fit`: resolve the lazily-initialised
bins (both are `None` on a fresh transformer, so the constants are
used), engineer the features, fit the four label encoders on the
engineered columns cast to `str`, encode and select the
`feature_columns`, and fit the scaler. The scaler's `scale_` is
computed by sklearn internals that the spec puts out of scope, so it is
taken as the parameter `std`; the mean is computed exactly. Returns
`none` when sklearn would raise (zero samples, or an encoder applied
with no classes, which cannot happen on a nonempty fit). -/
def FeatureEngineeringTransformer.fit (std : List (List ℚ) → List ℚ)
    (X : List RawRow) : Option FittedTransformer :=
  let ageBins := (none : Option (List ℚ)).getD defaultAgeBins
  let spendingBins := (none : Option (List ℚ)).getD defaultSpendingBins
  let eng := engineerBatch ageBins spendingBins X
  let gc := leFit (eng.map (fun er => er.raw.gender))
  let lc := leFit (eng.map (fun er => er.raw.location))
  let ac := leFit (eng.map (fun er => optToStr er.age_group))
  let tc := leFit (eng.map (fun er => optToStr er.spending_tier))
  match mapOption (unscaledRow gc lc ac tc) eng, X with
  | some vecs, _ :: _ =>
    some { genderClasses := gc, locationClasses := lc,
           ageGroupClasses := ac, spendingTierClasses := tc,
           featureMean := columnMeans vecs,
           featureScale := std vecs,
           ageBins := ageBins, spendingBins := spendingBins }
  | _, _ => none

/-- `FeatureEngineeringTransformer.transform`: engineer the features of
the new batch (the high-value flag uses this batch's quantiles but is
not among `feature_columns`), encode the categoricals, select the
feature columns, and scale with the fitted parameters. -/
def FeatureEngineeringTransformer.transform (s : FittedTransformer)
    (X : List RawRow) : Option (List (List ℚ)) :=
  let eng := engineerBatch s.ageBins s.spendingBins X
  match mapOption (unscaledRow s.genderClasses s.locationClasses
      s.ageGroupClasses s.spendingTierClasses) eng with
  | some vecs => some (vecs.map (scaleRow s))
  | none => none

/-- A concrete stand-in for sklearn's internal standard-deviation
computation, used to instantiate `fit` in closed witnesses. -/
def stdW : List (List ℚ) → List ℚ := fun _ => List.replicate 14 1

/-- Single-row training set used in the C2 counterexample: its age
column is the constant list `[10]`, so every quantile of it is `10`. -/
def rowC : RawRow :=
  { age := 10, session_count := 1, avg_session_duration := 1,
    page_views := 1, purchase_history := 0, total_spent := 10,
    engagement_score := 1/2, historical_conversion_rate := 0,
    gender := "F", location := "US" }

/-- The transformer state obtained by fitting on `[rowC]`. -/
def fittedC : FittedTransformer :=
  { genderClasses := ["F"], locationClasses := ["US"],
    ageGroupClasses := ["young"], spendingTierClasses := ["low"],
    featureMean := [10, 1, 1, 1, 0, 10, 1/2, 0, 0, 1, 0, 0, 0, 0],
    featureScale := List.replicate 14 1,
    ageBins := [0, 25, 35, 50, 100], spendingBins := [-1, 0, 50, 200] }

/-- C2 counterexample: fitting on the one-row dataset `[rowC]` yields
age-bucket boundaries `[0, 25, 35, 50, 100]`; the boundary 25 is used,
yet no quantile of the training age column (at any level q) equals 25 —
every quantile of the column `[10]` is 10. So the bucket boundaries are
not quantiles computed from the training data. -/
theorem c2_counterexample :
    (FeatureEngineeringTransformer.fit stdW [rowC]).map
        FittedTransformer.ageBins = some [0, 25, 35, 50, 100] ∧
      (25 : ℚ) ∈ [(0 : ℚ), 25, 35, 50, 100] ∧
      (∀ q : ℚ, quantile q ([rowC].map RawRow.age) = 10) ∧
      (10 : ℚ) ≠ 25 := by
  refine ⟨by decide, by decide, ?_, by norm_num⟩
  intro q
  simp [quantile, rowC, List.insertionSort, List.orderedInsert, mul_zero]

/-- C2 amended: the bucket boundaries used for age_group and
spending_tier are fixed constants — `[0, 25, 35, 50, 100]` for age and
`[-1, 0, 50, 200]` with an unbounded top bucket for spending — set
independently of whatever training data the transformer is fitted on. -/
theorem c2_fixed_bins (std : List (List ℚ) → List ℚ) (X : List RawRow)
    (s : FittedTransformer)
    (h : FeatureEngineeringTransformer.fit std X = some s) :
    s.ageBins = [0, 25, 35, 50, 100] ∧ s.spendingBins = [-1, 0, 50, 200] := by
  unfold FeatureEngineeringTransformer.fit at h
  dsimp only at h
  split at h
  case _ => cases h; exact ⟨rfl, rfl⟩
  case _ => cases h

/-- Evaluation of `fit` at the one-row dataset `[rowC]`. -/
theorem fit_rowC_eq :
    FeatureEngineeringTransformer.fit stdW [rowC] = some fittedC := by
  unfold FeatureEngineeringTransformer.fit
  norm_num [engineerBatch, engineerRow, quantile, rowC, List.insertionSort,
    List.orderedInsert, leFit, mapOption, unscaledRow, leEncodeSafe,
    leTransform, optToStr, selectFeatures, highValueFlag, spendPerPurchase,
    sessionEfficiency, cutBins, cutBinsTop, ageLabels, spendingLabels,
    defaultAgeBins, defaultSpendingBins, columnMean, columnMeans,
    featureColumns, List.range_succ, stdW, fittedC]

/-- Witness for C2's amended theorem at a concrete fit. -/
theorem c2_fixed_bins_witness :
    FeatureEngineeringTransformer.fit stdW [rowC] = some fittedC ∧
      (fittedC.ageBins = [0, 25, 35, 50, 100] ∧
        fittedC.spendingBins = [-1, 0, 50, 200]) :=
  ⟨fit_rowC_eq, c2_fixed_bins stdW [rowC] fittedC fit_rowC_eq⟩

/-- An experiment assignment returned by `assign_experiment` in
`inference.py`. -/
structure ExperimentAssignment where
  experiment_type : String
  variant : String
  priority : String
  deriving Repr, DecidableEq

/-- The variant draw `'A' if np.random.random() > 0.5 else 'B'`; the
boolean `coin` models the event that the draw exceeds 0.5. -/
def variantOf (coin : Bool) : String := if coin then "A" else "B"

/-- `assign_experiment(prediction, high_value_prob)` from
`inference.py`: the experiment type and priority depend only on the
predicted class and the high-value probability; the variant consumes
one random draw. -/
def assignExperiment (prediction : Fin 2) (high_value_prob : ℚ)
    (coin : Bool) : ExperimentAssignment :=
  if prediction = 1 then
    if high_value_prob > 8/10 then
      { experiment_type := "premium_features", variant := variantOf coin,
        priority := "high" }
    else
      { experiment_type := "engagement_boost", variant := variantOf coin,
        priority := "medium" }
  else
    if high_value_prob > 3/10 then
      { experiment_type := "conversion_optimization",
        variant := variantOf coin, priority := "medium" }
    else
      { experiment_type := "basic_features", variant := variantOf coin,
        priority := "low" }

/-- C3: the experiment-assignment rule as a function of the predicted
class and the high-value probability: premium_features/high iff
pred = 1 and p > 0.8; engagement_boost/medium iff pred = 1 and
p <= 0.8; conversion_optimization/medium iff pred = 0 and p > 0.3;
basic_features/low iff pred = 0 and p <= 0.3 — for every variant draw. -/
theorem c3_assign_experiment (pred : Fin 2) (p : ℚ) (coin : Bool) :
    (((assignExperiment pred p coin).experiment_type = "premium_features" ∧
        (assignExperiment pred p coin).priority = "high") ↔
      (pred = 1 ∧ p > 8/10)) ∧
    (((assignExperiment pred p coin).experiment_type = "engagement_boost" ∧
        (assignExperiment pred p coin).priority = "medium") ↔
      (pred = 1 ∧ p ≤ 8/10)) ∧
    (((assignExperiment pred p coin).experiment_type =
          "conversion_optimization" ∧
        (assignExperiment pred p coin).priority = "medium") ↔
      (pred = 0 ∧ p > 3/10)) ∧
    (((assignExperiment pred p coin).experiment_type = "basic_features" ∧
        (assignExperiment pred p coin).priority = "low") ↔
      (pred = 0 ∧ p ≤ 3/10)) := by
  fin_cases pred
  · by_cases h3 : p > 3/10
    · simp [assignExperiment, h3, not_le.mpr h3]
    · simp [assignExperiment, h3, not_lt.mp h3]
  · by_cases h8 : p > 8/10
    · simp [assignExperiment, h8, not_le.mpr h8]
    · simp [assignExperiment, h8, not_lt.mp h8]

/-- Helper for C4: with a nonempty fitted class list, the encoding
lambda always returns a code. -/
theorem leEncodeSafe_isSome (classes : List String) (x : String)
    (h : classes ≠ []) : (leEncodeSafe classes x).isSome = true := by
  unfold leEncodeSafe leTransform
  by_cases hx : x ∈ classes
  · simp [hx]
  · cases classes with
    | nil => exact absurd rfl h
    | cons c cs => simp [hx]

/-- C4: categorical encoding never fails on a fitted transformer: with
the four class lists nonempty (as after any successful fit), encoding a
row always yields the 14-entry feature vector; and for any single
encoder with nonempty classes, an unseen value is mapped to the code of
the first fitted class `classes_[0]`, which is code 0. -/
theorem c4_unseen_fallback (s : FittedTransformer) (er : EngineeredRow)
    (classes : List String) (x : String)
    (hg : s.genderClasses ≠ []) (hl : s.locationClasses ≠ [])
    (ha : s.ageGroupClasses ≠ []) (ht : s.spendingTierClasses ≠ [])
    (hc : classes ≠ []) :
    (unscaledRow s.genderClasses s.locationClasses s.ageGroupClasses
        s.spendingTierClasses er).isSome = true ∧
      (leEncodeSafe classes x).isSome = true ∧
      (x ∉ classes →
        leEncodeSafe classes x = leTransform classes classes.headI ∧
          leTransform classes classes.headI = some 0) := by
  refine ⟨?_, leEncodeSafe_isSome classes x hc, fun hx => ⟨?_, ?_⟩⟩
  · obtain ⟨g, hg1⟩ := Option.isSome_iff_exists.mp
      (leEncodeSafe_isSome s.genderClasses er.raw.gender hg)
    obtain ⟨l, hl1⟩ := Option.isSome_iff_exists.mp
      (leEncodeSafe_isSome s.locationClasses er.raw.location hl)
    obtain ⟨a, ha1⟩ := Option.isSome_iff_exists.mp
      (leEncodeSafe_isSome s.ageGroupClasses (optToStr er.age_group) ha)
    obtain ⟨t, ht1⟩ := Option.isSome_iff_exists.mp
      (leEncodeSafe_isSome s.spendingTierClasses (optToStr er.spending_tier) ht)
    simp [unscaledRow, hg1, hl1, ha1, ht1]
  · unfold leEncodeSafe
    rw [show leTransform classes x = none by simp [leTransform, hx]]
    cases classes with
    | nil => exact absurd rfl hc
    | cons c cs => simp [leTransform, List.headI]
  · cases classes with
    | nil => exact absurd rfl hc
    | cons c cs => simp [leTransform, List.headI]

/-- Engineered row used in closed witnesses. -/
def erW : EngineeredRow :=
  engineerRow 0 0 defaultAgeBins defaultSpendingBins rowA

/-- Witness for C4 at the concrete fitted state `fittedC`, the row
`erW` and a category value unseen at fit time. -/
theorem c4_unseen_fallback_witness :
    (unscaledRow fittedC.genderClasses fittedC.locationClasses
        fittedC.ageGroupClasses fittedC.spendingTierClasses erW).isSome = true ∧
      (leEncodeSafe ["F", "M"] "X").isSome = true ∧
      ("X" ∉ ["F", "M"] →
        leEncodeSafe ["F", "M"] "X" =
            leTransform ["F", "M"] (["F", "M"]).headI ∧
          leTransform ["F", "M"] (["F", "M"]).headI = some 0) :=
  c4_unseen_fallback fittedC erW ["F", "M"] "X" (by decide) (by decide)
    (by decide) (by decide) (by decide)

/-- Witness for C1 at a concrete two-row dataset and index 0. -/
theorem c1_high_value_label_witness :
    (highValueLabels [rowA, rowB]).getD 0 0 = 1 ↔
      ((([rowA, rowB]).getD 0 default).engagement_score >
          quantile (7/10) (([rowA, rowB]).map RawRow.engagement_score) ∧
        (([rowA, rowB]).getD 0 default).total_spent >
          quantile (6/10) (([rowA, rowB]).map RawRow.total_spent)) :=
  c1_high_value_label [rowA, rowB] 0 (by decide)

/-- The per-row part of `transform`: engineer (with dummy quantiles —
the quantile-dependent high_value_user column is not among
`feature_columns`), encode, select, scale. -/
def rowPipeline (s : FittedTransformer) (r : RawRow) : Option (List ℚ) :=
  (unscaledRow s.genderClasses s.locationClasses s.ageGroupClasses
      s.spendingTierClasses (engineerRow 0 0 s.ageBins s.spendingBins r)).map
    (scaleRow s)

/-- The encoded-and-selected features of a row do not depend on the
batch quantiles: only the dropped high_value_user column does. -/
theorem unscaledRow_engineerRow_const (gc lc ac tc : List String)
    (qE qT qE' qT' : ℚ) (ab sb : List ℚ) (r : RawRow) :
    unscaledRow gc lc ac tc (engineerRow qE qT ab sb r) =
      unscaledRow gc lc ac tc (engineerRow qE' qT' ab sb r) := rfl

/-- `transform` is the rowwise pipeline applied to each row. -/
theorem transform_eq_rowPipeline (s : FittedTransformer) (X : List RawRow) :
    FeatureEngineeringTransformer.transform s X =
      mapOption (rowPipeline s) X := by
  unfold FeatureEngineeringTransformer.transform engineerBatch
  dsimp only
  generalize quantile (7/10) (X.map RawRow.engagement_score) = qE
  generalize quantile (6/10) (X.map RawRow.total_spent) = qT
  induction X with
  | nil => simp [mapOption]
  | cons r rs ih =>
    simp only [List.map_cons, mapOption]
    rw [unscaledRow_engineerRow_const s.genderClasses s.locationClasses
      s.ageGroupClasses s.spendingTierClasses qE qT 0 0]
    cases hr : unscaledRow s.genderClasses s.locationClasses
        s.ageGroupClasses s.spendingTierClasses
        (engineerRow 0 0 s.ageBins s.spendingBins r) with
    | none =>
      simp [rowPipeline, hr, mapOption]
    | some v =>
      cases hrest : mapOption (unscaledRow s.genderClasses s.locationClasses
          s.ageGroupClasses s.spendingTierClasses)
          (rs.map (engineerRow qE qT s.ageBins s.spendingBins)) with
      | none =>
        rw [hrest] at ih
        simp [rowPipeline, hr, mapOption, ← ih]
      | some vs =>
        rw [hrest] at ih
        simp [rowPipeline, hr, mapOption, ← ih]

/-- `mapOption` distributes over concatenation when both halves
succeed. -/
theorem mapOption_append {α β : Type} (f : α → Option β)
    (xs ys : List α) (as bs : List β) (hx : mapOption f xs = some as)
    (hy : mapOption f ys = some bs) :
    mapOption f (xs ++ ys) = some (as ++ bs) := by
  induction xs generalizing as with
  | nil =>
    simp only [mapOption] at hx
    cases hx
    simpa using hy
  | cons a rest ih =>
    simp only [mapOption, List.cons_append, List.append_eq] at hx ⊢
    cases hfa : f a with
    | none => rw [hfa] at hx; cases hx
    | some b =>
      rw [hfa] at hx
      cases hrest : mapOption f rest with
      | none => rw [hrest] at hx; cases hx
      | some rs =>
        rw [hrest] at hx
        cases hx
        rw [ih rs hrest]
        rfl

/-- C5: scaling is train/val/test-consistent. The transformer's
parameters are captured at fit time; `transform` applies them rowwise,
so transforming the concatenation of two batches yields exactly the
concatenation of the two transformed batches — which row batch a row
appears in cannot change its scaled output. -/
theorem c5_transform_append (s : FittedTransformer) (xs ys : List RawRow)
    (as bs : List (List ℚ))
    (hx : FeatureEngineeringTransformer.transform s xs = some as)
    (hy : FeatureEngineeringTransformer.transform s ys = some bs) :
    FeatureEngineeringTransformer.transform s (xs ++ ys) =
      some (as ++ bs) := by
  rw [transform_eq_rowPipeline] at hx hy ⊢
  exact mapOption_append _ xs ys as bs hx hy

/-- Evaluation of `transform` at the fitted state `fittedC` and its own
training row: the scaler was fitted there, so the output is the zero
vector. -/
theorem transform_rowC_eq :
    FeatureEngineeringTransformer.transform fittedC [rowC] =
      some [List.replicate 14 0] := by
  unfold FeatureEngineeringTransformer.transform
  norm_num [engineerBatch, engineerRow, quantile, rowC, List.insertionSort,
    List.orderedInsert, mapOption, unscaledRow, leEncodeSafe, leTransform,
    optToStr, selectFeatures, highValueFlag, spendPerPurchase,
    sessionEfficiency, cutBins, cutBinsTop, ageLabels, spendingLabels,
    fittedC, scaleRow, List.replicate]

/-- Witness for C5 at concrete batches. -/
theorem c5_transform_append_witness :
    FeatureEngineeringTransformer.transform fittedC ([rowC] ++ [rowC]) =
      some ([List.replicate 14 0] ++ [List.replicate 14 0]) :=
  c5_transform_append fittedC [rowC] [rowC] [List.replicate 14 0]
    [List.replicate 14 0] transform_rowC_eq transform_rowC_eq

/-- The transformation of `FeatureEngineeringTransformer.transform` as
a step relation on batches: `Y` is a valid output for fitted state `s`
on input `X` when the engineered, encoded and scaled stages chain as in
the source. -/
def TransformSpec (s : FittedTransformer) (X : List RawRow)
    (Y : List (List ℚ)) : Prop :=
  ∃ eng enc, eng = engineerBatch s.ageBins s.spendingBins X ∧
    mapOption (unscaledRow s.genderClasses s.locationClasses
        s.ageGroupClasses s.spendingTierClasses) eng = some enc ∧
    Y = enc.map (scaleRow s)

/-- C9: the fitted transformer is deterministic: any two outputs the
transformation relation admits for the same fitted state and input are
equal, and they coincide with the functional embedding `transform`
(the code draws no randomness in `transform`; `np.random` appears only
in `assign_experiment`). -/
theorem c9_transform_deterministic (s : FittedTransformer)
    (X : List RawRow) (Y₁ Y₂ : List (List ℚ))
    (h1 : TransformSpec s X Y₁) (h2 : TransformSpec s X Y₂) :
    Y₁ = Y₂ ∧ FeatureEngineeringTransformer.transform s X = some Y₁ := by
  obtain ⟨e1, n1, he1, hn1, hy1⟩ := h1
  obtain ⟨e2, n2, he2, hn2, hy2⟩ := h2
  subst he1 he2 hy1 hy2
  rw [hn1] at hn2
  cases hn2
  refine ⟨rfl, ?_⟩
  unfold FeatureEngineeringTransformer.transform
  dsimp only
  rw [hn1]

/-- The unscaled feature vector of `rowC` under `fittedC`. -/
def vecC : List ℚ := [10, 1, 1, 1, 0, 10, 1/2, 0, 0, 1, 0, 0, 0, 0]

/-- Witness for C9 at a concrete fitted state and input batch. -/
theorem c9_transform_deterministic_witness :
    [List.replicate 14 (0 : ℚ)] = [List.replicate 14 (0 : ℚ)] ∧
      FeatureEngineeringTransformer.transform fittedC [rowC] =
        some [List.replicate 14 (0 : ℚ)] := by
  have hspec : TransformSpec fittedC [rowC] [List.replicate 14 (0 : ℚ)] := by
    refine ⟨engineerBatch fittedC.ageBins fittedC.spendingBins [rowC],
      [vecC], rfl, ?_, ?_⟩
    · norm_num [engineerBatch, engineerRow, quantile, rowC,
        List.insertionSort, List.orderedInsert, mapOption, unscaledRow,
        leEncodeSafe, leTransform, optToStr, selectFeatures, highValueFlag,
        spendPerPurchase, sessionEfficiency, cutBins, cutBinsTop, ageLabels,
        spendingLabels, fittedC, vecC]
    · norm_num [scaleRow, fittedC, vecC, List.replicate]
  exact c9_transform_deterministic fittedC [rowC] _ _ hspec hspec

/-- The classifier stage of the trained model. Its tree ensemble is
out-of-scope sklearn internals, so it is abstract: a predicted class in
{0, 1} (the `target_classes` of the binary training set) and a
probability pair `[p0, p1]` per feature vector. -/
structure Classifier where
  predict : List ℚ → Fin 2
  predictProba : List ℚ → ℚ × ℚ

/-- The object loaded by `model_fn`: either the unified sklearn
`Pipeline` saved by `train.py` (fitted feature transformer plus
classifier) or a standalone classifier (the fallback branch of
`train.py` when raw data or the transformer is missing). -/
inductive Model where
  | pipeline (preprocessing : FittedTransformer) (classifier : Classifier)
  | standalone (classifier : Classifier)

/-- One element of the result list built by `predict_fn`. -/
structure PredictionResult where
  user_index : ℕ
  predicted_bucket : String
  confidence : ℚ
  high_value_probability : ℚ
  standard_probability : ℚ
  experiment_assignment : ExperimentAssignment
  model_version : String
  deriving Repr, DecidableEq

/-- The result dict built for row `i` of the batch in `predict_fn`:
bucket from `pred == 1`, confidence `prob[pred]`, the two class
probabilities, and the experiment assignment. -/
def mkResult (i : ℕ) (pred : Fin 2) (prob : ℚ × ℚ) (coin : Bool) :
    PredictionResult :=
  { user_index := i
    predicted_bucket := if pred = 1 then "high_value" else "standard"
    confidence := if pred = 1 then prob.2 else prob.1
    high_value_probability := prob.2
    standard_probability := prob.1
    experiment_assignment := assignExperiment pred prob.2 coin
    model_version := "unified_pipeline" }

/-- The result-building loop of `predict_fn` over the scored batch,
one random draw per row for the experiment variant. -/
def buildResults (c : Classifier) (coins : ℕ → Bool)
    (feats : List (List ℚ)) : List PredictionResult :=
  feats.enum.map
    (fun p => mkResult p.1 (c.predict p.2) (c.predictProba p.2) (coins p.1))

/-- The message of the ValueError raised by `predict_fn` on a
non-Pipeline model. -/
def pipelineErrorMessage : String :=
  "Expected a Pipeline model but got standalone classifier. Check training configuration."

/-- `predict_fn(input_data, model)`: when the model is a Pipeline, run
the raw features through the bundled transformer and classifier and
build the per-user results; otherwise raise ValueError. An exception
escaping the transformer propagates (the except block re-raises). -/
def predictFn (m : Model) (coins : ℕ → Bool) (X : List RawRow) :
    Except String (List PredictionResult) :=
  match m with
  | .pipeline t c =>
    match FeatureEngineeringTransformer.transform t X with
    | some feats => .ok (buildResults c coins feats)
    | none => .error "Error during prediction"
  | .standalone _ => .error pipelineErrorMessage

/-- C6: `predict_fn` scores raw (un-preprocessed) features end-to-end
when the loaded model is the unified Pipeline — the transformer runs
inside the model — and raises a ValueError, producing no predictions,
whenever the loaded model is not a Pipeline. -/
theorem c6_predict_requires_pipeline (t : FittedTransformer)
    (c : Classifier) (coins : ℕ → Bool) (X : List RawRow)
    (fs : List (List ℚ))
    (h : FeatureEngineeringTransformer.transform t X = some fs) :
    predictFn (Model.pipeline t c) coins X =
        Except.ok (buildResults c coins fs) ∧
      predictFn (Model.standalone c) coins X =
        Except.error pipelineErrorMessage := by
  constructor
  · unfold predictFn
    dsimp only
    rw [h]
  · rfl

/-- Concrete classifier used in closed witnesses: always predicts
class 1 with probabilities (0, 1). -/
def classifierW : Classifier :=
  { predict := fun _ => 1, predictProba := fun _ => (0, 1) }

/-- Concrete variant-draw stream used in closed witnesses. -/
def coinsW : ℕ → Bool := fun _ => true

/-- Witness for C6 at a concrete pipeline model and batch. -/
theorem c6_predict_requires_pipeline_witness :
    predictFn (Model.pipeline fittedC classifierW) coinsW [rowC] =
        Except.ok (buildResults classifierW coinsW [List.replicate 14 0]) ∧
      predictFn (Model.standalone classifierW) coinsW [rowC] =
        Except.error pipelineErrorMessage :=
  c6_predict_requires_pipeline fittedC classifierW coinsW [rowC]
    [List.replicate 14 0] transform_rowC_eq

/-- C7: every scored user lands in exactly one of the two segments:
its `predicted_bucket` is "high_value" when the classifier predicts
class 1 on its feature vector and "standard" otherwise, and its
`experiment_assignment` is derived from that same prediction (and the
row's high-value probability and variant draw). -/
theorem c7_user_bucketing (t : FittedTransformer) (c : Classifier)
    (coins : ℕ → Bool) (X : List RawRow) (rs : List PredictionResult)
    (h : predictFn (Model.pipeline t c) coins X = Except.ok rs) :
    ∀ r ∈ rs,
      (r.predicted_bucket = "high_value" ∨ r.predicted_bucket = "standard") ∧
        ∃ v, r.predicted_bucket =
              (if c.predict v = 1 then "high_value" else "standard") ∧
            r.experiment_assignment =
              assignExperiment (c.predict v) (c.predictProba v).2
                (coins r.user_index) := by
  unfold predictFn at h
  dsimp only at h
  cases ht : FeatureEngineeringTransformer.transform t X with
  | none => rw [ht] at h; cases h
  | some fs =>
    rw [ht] at h
    cases h
    intro r hr
    obtain ⟨p, _, hp⟩ := List.mem_map.mp hr
    subst hp
    refine ⟨?_, p.2, rfl, ?_⟩
    · by_cases h1 : c.predict p.2 = 1 <;> simp [mkResult, h1]
    · rfl

/-- The single result produced in the C7 witness run. -/
def resultW : PredictionResult := mkResult 0 1 (0, 1) true

/-- Witness for C7 at a concrete pipeline model, batch and result. -/
theorem c7_user_bucketing_witness :
    (resultW.predicted_bucket = "high_value" ∨
        resultW.predicted_bucket = "standard") ∧
      ∃ v, resultW.predicted_bucket =
            (if classifierW.predict v = 1 then "high_value" else "standard") ∧
          resultW.experiment_assignment =
            assignExperiment (classifierW.predict v)
              (classifierW.predictProba v).2 (coinsW resultW.user_index) :=
  c7_user_bucketing fittedC classifierW coinsW [rowC] [resultW]
    (by unfold predictFn
        dsimp only
        rw [transform_rowC_eq]
        rfl) resultW (by simp)

/-- A non-null Spark date, carrying what `year`, `month` and
`dayofmonth` extract. -/
structure TransactionDate where
  year : ℤ
  month : ℤ
  day : ℤ
  deriving Repr, DecidableEq

/-- One row of the raw `sales` table, restricted to the columns
`clean_sales_data` reads; `transaction_date` is `none` when the column
is null. -/
structure SalesRow where
  transaction_id : ℕ
  customer_id : ℕ
  product_id : ℕ
  transaction_date : Option TransactionDate
  quantity : ℚ
  unit_price : ℚ
  total_amount : ℚ
  store_location : String
  deriving Repr, DecidableEq, Inhabited

/-- The filter of `clean_sales_data`:
`(total_amount > 0) & (quantity > 0) & (transaction_date.isNotNull())`. -/
def validSale (r : SalesRow) : Prop :=
  0 < r.total_amount ∧ 0 < r.quantity ∧ r.transaction_date ≠ none

instance (r : SalesRow) : Decidable (validSale r) := by
  unfold validSale; infer_instance

/-- Spark `dropDuplicates(['transaction_id'])` on a single partition:
keep the first row bearing each transaction_id, drop the rest. -/
def dropDuplicatesBy (seen : List ℕ) : List SalesRow → List SalesRow
  | [] => []
  | r :: rest =>
    if r.transaction_id ∈ seen then dropDuplicatesBy seen rest
    else r :: dropDuplicatesBy (r.transaction_id :: seen) rest

/-- Spark `round(x, 2)` (HALF_UP, away from zero). -/
def roundHalfUp2 (x : ℚ) : ℚ :=
  if 0 ≤ x then ((⌊x * 100 + 1/2⌋ : ℤ) : ℚ) / 100
  else -(((⌊-x * 100 + 1/2⌋ : ℤ) : ℚ) / 100)

/-- A cleaned sales row: the surviving source row plus the derived
columns added by `clean_sales_data` (`withColumn` calls). -/
structure CleanedSaleRow where
  sale : SalesRow
  transaction_year : Option ℤ
  transaction_month : Option ℤ
  transaction_day : Option ℤ
  discount_percentage : Option ℚ
  deriving Repr, DecidableEq

/-- The derived columns of `clean_sales_data`: date parts (null on a
null date) and
`round(((unit_price*quantity - total_amount) / (unit_price*quantity)) * 100, 2)`
(null when Spark divides by zero). -/
def addDerivedColumns (r : SalesRow) : CleanedSaleRow :=
  { sale := r
    transaction_year := r.transaction_date.map TransactionDate.year
    transaction_month := r.transaction_date.map TransactionDate.month
    transaction_day := r.transaction_date.map TransactionDate.day
    discount_percentage :=
      if r.unit_price * r.quantity = 0 then none
      else some (roundHalfUp2
        (((r.unit_price * r.quantity - r.total_amount) /
            (r.unit_price * r.quantity)) * 100)) }

/-- `clean_sales_data` from `sample-etl.py`: drop duplicate
transaction_ids first, then filter out invalid transactions, then add
the derived columns. -/
def clean_sales_data (rows : List SalesRow) : List CleanedSaleRow :=
  ((dropDuplicatesBy [] rows).filter
      (fun r => decide (validSale r))).map addDerivedColumns

/-- The first row of a list bearing a given transaction_id, if any. -/
def firstWithId (tid : ℕ) : List SalesRow → Option SalesRow
  | [] => none
  | r :: rest => if r.transaction_id = tid then some r else firstWithId tid rest

/-- Membership in the deduplicated list: a row survives iff its id is
not among the already-seen keys and it is the first row of the input
bearing its transaction_id. -/
theorem mem_dropDuplicatesBy (rows : List SalesRow) :
    ∀ (seen : List ℕ) (r : SalesRow),
      r ∈ dropDuplicatesBy seen rows ↔
        (r.transaction_id ∉ seen ∧
          firstWithId r.transaction_id rows = some r) := by
  induction rows with
  | nil => intro seen r; simp [dropDuplicatesBy, firstWithId]
  | cons r0 rest ih =>
    intro seen r
    unfold dropDuplicatesBy firstWithId
    by_cases heq : r0.transaction_id = r.transaction_id
    · rw [if_pos heq]
      by_cases hid : r0.transaction_id ∈ seen
      · rw [if_pos hid, ih seen r]
        apply iff_of_false
        · rintro ⟨hns, -⟩; exact hns (heq ▸ hid)
        · rintro ⟨hns, -⟩; exact hns (heq ▸ hid)
      · rw [if_neg hid]
        constructor
        · intro hmem
          rcases List.mem_cons.mp hmem with h | h
          · subst h; exact ⟨hid, rfl⟩
          · rw [ih (r0.transaction_id :: seen) r] at h
            exact absurd (by rw [← heq]; exact List.mem_cons_self _ _) h.1
        · rintro ⟨hns, hsome⟩
          have h0 : r0 = r := Option.some.inj hsome
          subst h0
          exact List.mem_cons_self _ _
    · rw [if_neg heq]
      by_cases hid : r0.transaction_id ∈ seen
      · rw [if_pos hid, ih seen r]
      · rw [if_neg hid]
        constructor
        · intro hmem
          rcases List.mem_cons.mp hmem with h | h
          · exact absurd (by rw [h]) heq
          · rw [ih (r0.transaction_id :: seen) r] at h
            exact ⟨fun hs => h.1 (List.mem_cons_of_mem _ hs), h.2⟩
        · rintro ⟨hns, hf⟩
          apply List.mem_cons_of_mem
          rw [ih (r0.transaction_id :: seen) r]
          refine ⟨fun hmem => ?_, hf⟩
          rcases List.mem_cons.mp hmem with h | h
          · exact heq h.symm
          · exact hns h

/-- The transaction_ids of the deduplicated list are distinct and
avoid the seen set. -/
theorem nodup_dropDuplicatesBy (rows : List SalesRow) :
    ∀ seen : List ℕ,
      ((dropDuplicatesBy seen rows).map SalesRow.transaction_id).Nodup ∧
        ∀ r ∈ dropDuplicatesBy seen rows, r.transaction_id ∉ seen := by
  induction rows with
  | nil => intro seen; simp [dropDuplicatesBy]
  | cons r0 rest ih =>
    intro seen
    unfold dropDuplicatesBy
    by_cases hid : r0.transaction_id ∈ seen
    · rw [if_pos hid]; exact ih seen
    · rw [if_neg hid]
      obtain ⟨hnd, hav⟩ := ih (r0.transaction_id :: seen)
      refine ⟨List.nodup_cons.mpr ⟨?_, hnd⟩, ?_⟩
      · intro hmem
        obtain ⟨r, hr, hrid⟩ := List.mem_map.mp hmem
        exact hav r hr (hrid ▸ List.mem_cons_self _ _)
      · intro r hr
        rcases List.mem_cons.mp hr with h | h
        · exact h ▸ hid
        · exact fun hs => hav r h (List.mem_cons_of_mem _ hs)

/-- Date shared by the C8 counterexample rows. -/
def dateD : TransactionDate := { year := 2024, month := 5, day := 17 }

/-- First C8 counterexample row: valid, transaction_id 1. -/
def sale1 : SalesRow :=
  { transaction_id := 1, customer_id := 10, product_id := 100,
    transaction_date := some dateD, quantity := 2, unit_price := 5,
    total_amount := 9, store_location := "NY" }

/-- Second C8 counterexample row: also valid, same transaction_id 1. -/
def sale2 : SalesRow :=
  { transaction_id := 1, customer_id := 11, product_id := 101,
    transaction_date := some dateD, quantity := 3, unit_price := 4,
    total_amount := 11, store_location := "SF" }

/-- C8 counterexample: `sale2` violates none of the three conditions
(total_amount > 0, quantity > 0, non-null date), yet it is dropped by
`clean_sales_data` because `dropDuplicates` runs before the filter and
keeps only the first row per transaction_id. So it is not true that
every row violating none of the conditions is retained. -/
theorem c8_counterexample :
    validSale sale2 ∧ sale2 ∈ ([sale1, sale2] : List SalesRow) ∧
      (clean_sales_data [sale1, sale2]).map CleanedSaleRow.sale = [sale1] ∧
      ∀ e ∈ clean_sales_data [sale1, sale2], e.sale ≠ sale2 := by
  refine ⟨by decide, by decide, by decide, by decide⟩

/-- C8 amended: every output row of `clean_sales_data` satisfies
total_amount > 0, quantity > 0 and a non-null transaction_date; no two
output rows share a transaction_id; every input row violating one of
the conditions is dropped; and a row is retained iff it satisfies the
conditions AND is the first input row bearing its transaction_id
(deduplication happens before the validity filter, so a valid row is
dropped whenever any earlier row — valid or not — shares its id). -/
theorem c8_clean_sales_invariant (rows : List SalesRow) :
    (∀ e ∈ clean_sales_data rows,
        0 < e.sale.total_amount ∧ 0 < e.sale.quantity ∧
          e.sale.transaction_date ≠ none) ∧
      ((clean_sales_data rows).map
          (fun e => e.sale.transaction_id)).Nodup ∧
      (∀ r ∈ rows, ¬validSale r →
        ∀ e ∈ clean_sales_data rows, e.sale ≠ r) ∧
      (∀ r : SalesRow,
        (∃ e ∈ clean_sales_data rows, e.sale = r) ↔
          (validSale r ∧ firstWithId r.transaction_id rows = some r)) := by
  have hsale : ∀ e ∈ clean_sales_data rows, validSale e.sale := by
    intro e he
    obtain ⟨r, hr, hre⟩ := List.mem_map.mp he
    subst hre
    have := List.mem_filter.mp hr
    exact of_decide_eq_true this.2
  refine ⟨?_, ?_, ?_, ?_⟩
  · intro e he
    exact hsale e he
  · unfold clean_sales_data
    rw [List.map_map]
    have hcomp : (fun e => e.sale.transaction_id) ∘ addDerivedColumns =
        SalesRow.transaction_id := rfl
    rw [hcomp]
    have hsub : List.Sublist
        (((dropDuplicatesBy [] rows).filter
            (fun r => decide (validSale r))).map SalesRow.transaction_id)
        ((dropDuplicatesBy [] rows).map SalesRow.transaction_id) :=
      (List.filter_sublist _).map _
    exact hsub.nodup (nodup_dropDuplicatesBy rows []).1
  · intro r _ hinv e he hsr
    exact hinv (hsr ▸ hsale e he)
  · intro r
    constructor
    · rintro ⟨e, he, hsr⟩
      obtain ⟨x, hx, hxe⟩ := List.mem_map.mp he
      have hxr : x = r := by rw [← hsr, ← hxe]; rfl
      subst hxr
      have hf := List.mem_filter.mp hx
      refine ⟨of_decide_eq_true hf.2, ?_⟩
      have := (mem_dropDuplicatesBy rows [] x).mp hf.1
      exact this.2
    · rintro ⟨hv, hfirst⟩
      refine ⟨addDerivedColumns r, ?_, rfl⟩
      apply List.mem_map_of_mem
      apply List.mem_filter.mpr
      refine ⟨?_, decide_eq_true hv⟩
      exact (mem_dropDuplicatesBy rows [] r).mpr ⟨by simp, hfirst⟩

/-- Witness for C8's amended theorem: the retention characterisation
instantiated at the concrete duplicate-id batch and the row `sale1`. -/
theorem c8_clean_sales_invariant_witness :
    (∃ e ∈ clean_sales_data [sale1, sale2], e.sale = sale1) ↔
      (validSale sale1 ∧
        firstWithId sale1.transaction_id [sale1, sale2] = some sale1) :=
  (c8_clean_sales_invariant [sale1, sale2]).2.2.2 sale1

/-- A JSON field value as pandas sees it after `pd.DataFrame(...)`:
a number (int/float), a string, or NaN (a JSON null, or a key absent
from this record while present in another). NaN is a float, so it
passes the numeric isinstance check and fails the string one; every
comparison against it is false. -/
inductive JsonVal where
  | num (q : ℚ)
  | str (s : String)
  | nan
  deriving Repr, DecidableEq

/-- One record of the JSON request body. -/
abbrev JsonRecord := List (String × JsonVal)

/-- `required_raw_features` from `input_fn`. -/
def requiredRawFeatures : List String :=
  ["age", "session_count", "avg_session_duration", "page_views",
    "purchase_history", "total_spent", "engagement_score",
    "historical_conversion_rate", "gender", "location"]

/-- The value of column `c` in a record: NaN when the key is absent. -/
def getVal (row : JsonRecord) (c : String) : JsonVal :=
  match row.find? (fun p => p.1 == c) with
  | some p => p.2
  | none => JsonVal.nan

/-- Whether the DataFrame built from the request has column `c` (the
columns are the union of the records' keys). -/
def hasColumn (req : List JsonRecord) (c : String) : Bool :=
  req.any (fun row => row.any (fun p => p.1 == c))

/-- `missing_features = [f for f in required_raw_features if f not in df.columns]`. -/
def missingFeatures (req : List JsonRecord) : List String :=
  requiredRawFeatures.filter (fun f => !hasColumn req f)

/-- One entry of the `validations` dict in `_validate_input_data`:
expected type (numeric `(int, float)` vs `str`) and optional bounds. -/
structure ValidationRule where
  isNumericType : Bool
  minVal : Option ℚ
  maxVal : Option ℚ
  deriving Repr, DecidableEq

/-- The `validations` dict, in its Python insertion order. The
`values` entry for gender only logs a warning, so it does not appear
here. -/
def validations : List (String × ValidationRule) :=
  [("age", ⟨true, some 0, some 120⟩),
    ("session_count", ⟨true, some 0, none⟩),
    ("avg_session_duration", ⟨true, some 0, none⟩),
    ("page_views", ⟨true, some 0, none⟩),
    ("purchase_history", ⟨true, some 0, none⟩),
    ("total_spent", ⟨true, some 0, none⟩),
    ("engagement_score", ⟨true, some 0, some 1⟩),
    ("historical_conversion_rate", ⟨true, some 0, some 1⟩),
    ("gender", ⟨false, none, none⟩),
    ("location", ⟨false, none, none⟩)]

/-- `isinstance(x, rules['type'])`: numbers and NaN count as
`(int, float)`; only strings count as `str`. -/
def typeOk (isNum : Bool) (v : JsonVal) : Bool :=
  if isNum then
    match v with
    | JsonVal.str _ => false
    | _ => true
  else
    match v with
    | JsonVal.str _ => true
    | _ => false

/-- `df[col] < min_val` elementwise: false on NaN and on strings
(pandas comparisons with NaN are false; the type check has already
passed when this runs). -/
def belowMin (v : JsonVal) (m : ℚ) : Bool :=
  match v with
  | JsonVal.num q => decide (q < m)
  | _ => false

/-- `df[col] > max_val` elementwise, as `belowMin`. -/
def aboveMax (v : JsonVal) (m : ℚ) : Bool :=
  match v with
  | JsonVal.num q => decide (m < q)
  | _ => false

/-- The body of the `for col, rules in validations.items()` loop for
one column: raise on a type mismatch, then on a value below the
minimum, then on a value above the maximum. -/
def checkColumn (req : List JsonRecord) (c : String)
    (rule : ValidationRule) : Except String Unit :=
  if req.all (fun row => typeOk rule.isNumericType (getVal row c)) then
    if (match rule.minVal with
        | some m => req.any (fun row => belowMin (getVal row c) m)
        | none => false) then
      Except.error ("Values in " ++ c ++ " below minimum")
    else if (match rule.maxVal with
        | some m => req.any (fun row => aboveMax (getVal row c) m)
        | none => false) then
      Except.error ("Values in " ++ c ++ " above maximum")
    else Except.ok ()
  else Except.error ("Invalid data type for " ++ c)

/-- `_validate_input_data`: run the per-column checks in dict order,
propagating the first raised ValueError. -/
def validateAll : List (String × ValidationRule) → List JsonRecord →
    Except String Unit
  | [], _ => Except.ok ()
  | (c, rule) :: rest, req =>
    match checkColumn req c rule with
    | Except.ok _ => validateAll rest req
    | Except.error e => Except.error e

/-- The final selection `df = df[required_raw_features]` on one
record: exactly the ten required columns, in order. -/
def projectRow (row : JsonRecord) : JsonRecord :=
  requiredRawFeatures.map (fun f => (f, getVal row f))

/-- `input_fn(request_body, request_content_type)`: reject non-JSON
content types, then missing required columns, then run
`_validate_input_data`, and finally return the DataFrame restricted to
the ten required feature columns. -/
def input_fn (request : List JsonRecord) (request_content_type : String) :
    Except String (List JsonRecord) :=
  if request_content_type = "application/json" then
    if missingFeatures request ≠ [] then
      Except.error "Missing required features"
    else
      match validateAll validations request with
      | Except.ok _ => Except.ok (request.map projectRow)
      | Except.error e => Except.error e
  else
    Except.error ("Unsupported content type: " ++ request_content_type)

/-- Claim-side predicate: the value is of numeric type (the claim's
"non-numeric type" for a numeric feature). -/
def numericVal (v : JsonVal) : Bool :=
  match v with
  | JsonVal.str _ => false
  | _ => true

/-- Claim-side predicate: the value is a string. -/
def stringVal (v : JsonVal) : Bool :=
  match v with
  | JsonVal.str _ => true
  | _ => false

/-- Claim-side predicate: a numeric value is at least `m` (vacuous for
non-numbers, matching pandas comparison semantics). -/
def geOkB (v : JsonVal) (m : ℚ) : Bool :=
  match v with
  | JsonVal.num q => decide (m ≤ q)
  | _ => true

/-- Claim-side predicate: a numeric value is at most `m`. -/
def leOkB (v : JsonVal) (m : ℚ) : Bool :=
  match v with
  | JsonVal.num q => decide (q ≤ m)
  | _ => true

/-- Claim-side condition on one record: every numeric feature is of
numeric type and within its range (age in [0, 120]; engagement_score
and historical_conversion_rate in [0, 1]; the five count/amount
features nonnegative). -/
def rowNumericsOk (row : JsonRecord) : Bool :=
  numericVal (getVal row "age") && geOkB (getVal row "age") 0 &&
    leOkB (getVal row "age") 120 &&
    numericVal (getVal row "session_count") &&
    geOkB (getVal row "session_count") 0 &&
    numericVal (getVal row "avg_session_duration") &&
    geOkB (getVal row "avg_session_duration") 0 &&
    numericVal (getVal row "page_views") &&
    geOkB (getVal row "page_views") 0 &&
    numericVal (getVal row "purchase_history") &&
    geOkB (getVal row "purchase_history") 0 &&
    numericVal (getVal row "total_spent") &&
    geOkB (getVal row "total_spent") 0 &&
    numericVal (getVal row "engagement_score") &&
    geOkB (getVal row "engagement_score") 0 &&
    leOkB (getVal row "engagement_score") 1 &&
    numericVal (getVal row "historical_conversion_rate") &&
    geOkB (getVal row "historical_conversion_rate") 0 &&
    leOkB (getVal row "historical_conversion_rate") 1

/-- Claim-side condition the original claim omits: gender and location
must be strings (their type check in `validations` also raises). -/
def rowStringsOk (row : JsonRecord) : Bool :=
  stringVal (getVal row "gender") && stringVal (getVal row "location")

/-- A per-column check passes iff every row passes the type check and
no numeric value violates a declared bound. -/
theorem checkColumn_isOk_iff (req : List JsonRecord) (c : String)
    (rule : ValidationRule) :
    (checkColumn req c rule).isOk = true ↔
      ((∀ row ∈ req, typeOk rule.isNumericType (getVal row c) = true) ∧
        (∀ m, rule.minVal = some m →
          ∀ row ∈ req, belowMin (getVal row c) m = false) ∧
        (∀ m, rule.maxVal = some m →
          ∀ row ∈ req, aboveMax (getVal row c) m = false)) := by
  rcases rule with ⟨isnum, mn, mx⟩
  cases mn <;> cases mx <;>
    simp [checkColumn, Except.isOk, Except.toBool, List.all_eq_true,
      List.any_eq_true, Bool.not_eq_true] <;>
    aesop

/-- `_validate_input_data` passes iff every per-column check passes. -/
theorem validateAll_isOk_iff (rules : List (String × ValidationRule))
    (req : List JsonRecord) :
    (validateAll rules req).isOk = true ↔
      ∀ p ∈ rules, (checkColumn req p.1 p.2).isOk = true := by
  induction rules with
  | nil => simp [validateAll, Except.isOk, Except.toBool]
  | cons p rest ih =>
    rcases p with ⟨c, rule⟩
    unfold validateAll
    rw [List.forall_mem_cons]
    cases h : checkColumn req c rule with
    | ok u =>
      have hh : (Except.ok u : Except String Unit).isOk = true := rfl
      exact ⟨fun hr => ⟨hh, ih.mp hr⟩, fun hr => ih.mpr hr.2⟩
    | error e =>
      apply iff_of_false
      · intro hfalse
        exact Bool.false_ne_true hfalse
      · intro hr
        exact Bool.false_ne_true hr.1

/-- Claim-side: every value of column `f` is of numeric type. -/
def colNumOk (req : List JsonRecord) (f : String) : Bool :=
  req.all (fun row => numericVal (getVal row f))

/-- Claim-side: no numeric value of column `f` is below `m`. -/
def colMinOk (req : List JsonRecord) (f : String) (m : ℚ) : Bool :=
  req.all (fun row => geOkB (getVal row f) m)

/-- Claim-side: no numeric value of column `f` is above `m`. -/
def colMaxOk (req : List JsonRecord) (f : String) (m : ℚ) : Bool :=
  req.all (fun row => leOkB (getVal row f) m)

/-- Claim-side: every value of column `f` is a string. -/
def colStrOk (req : List JsonRecord) (f : String) : Bool :=
  req.all (fun row => stringVal (getVal row f))

/-- Claim-side acceptance condition on the numeric features, exactly
as the claim words it: age within [0, 120]; engagement_score and
historical_conversion_rate within [0, 1]; session_count,
avg_session_duration, page_views, purchase_history and total_spent
nonnegative; all of numeric type. -/
def specNumericsOk (req : List JsonRecord) : Bool :=
  colNumOk req "age" && colMinOk req "age" 0 && colMaxOk req "age" 120 &&
    colNumOk req "session_count" && colMinOk req "session_count" 0 &&
    colNumOk req "avg_session_duration" &&
    colMinOk req "avg_session_duration" 0 &&
    colNumOk req "page_views" && colMinOk req "page_views" 0 &&
    colNumOk req "purchase_history" && colMinOk req "purchase_history" 0 &&
    colNumOk req "total_spent" && colMinOk req "total_spent" 0 &&
    colNumOk req "engagement_score" && colMinOk req "engagement_score" 0 &&
    colMaxOk req "engagement_score" 1 &&
    colNumOk req "historical_conversion_rate" &&
    colMinOk req "historical_conversion_rate" 0 &&
    colMaxOk req "historical_conversion_rate" 1

/-- The condition the original claim omits: gender and location must
also be strings (their type check raises a ValueError too). -/
def specStringsOk (req : List JsonRecord) : Bool :=
  colStrOk req "gender" && colStrOk req "location"

/-- The numeric type check of `validations` is the claim-side numeric
type predicate. -/
theorem typeOk_true_eq (v : JsonVal) : typeOk true v = numericVal v := by
  cases v <;> rfl

/-- The string type check of `validations` is the claim-side string
predicate. -/
theorem typeOk_false_eq (v : JsonVal) : typeOk false v = stringVal v := by
  cases v <;> rfl

/-- No below-minimum violation means the claim-side lower bound holds. -/
theorem belowMin_false_iff (v : JsonVal) (m : ℚ) :
    belowMin v m = false ↔ geOkB v m = true := by
  cases v <;> simp [belowMin, geOkB, not_lt]

/-- No above-maximum violation means the claim-side upper bound holds. -/
theorem aboveMax_false_iff (v : JsonVal) (m : ℚ) :
    aboveMax v m = false ↔ leOkB v m = true := by
  cases v <;> simp [aboveMax, leOkB, not_lt]

/-- A numeric column's check passes iff the claim-side type and range
conditions hold. -/
theorem checkColumn_num_iff (req : List JsonRecord) (f : String)
    (lo hi : Option ℚ) :
    (checkColumn req f ⟨true, lo, hi⟩).isOk = true ↔
      (colNumOk req f = true ∧
        (∀ m, lo = some m → colMinOk req f m = true) ∧
        (∀ m, hi = some m → colMaxOk req f m = true)) := by
  rw [checkColumn_isOk_iff]
  simp [colNumOk, colMinOk, colMaxOk, List.all_eq_true, typeOk_true_eq,
    belowMin_false_iff, aboveMax_false_iff]

/-- A string column's check passes iff every value is a string. -/
theorem checkColumn_str_iff (req : List JsonRecord) (f : String) :
    (checkColumn req f ⟨false, none, none⟩).isOk = true ↔
      colStrOk req f = true := by
  rw [checkColumn_isOk_iff]
  simp [colStrOk, List.all_eq_true, typeOk_false_eq]

/-- A vacuous bound: there is no `m` with `none = some m`. -/
theorem forall_option_none_imp {P : ℚ → Prop} :
    (∀ m : ℚ, (none : Option ℚ) = some m → P m) ↔ True := by
  refine ⟨fun _ => trivial, fun _ m hm => ?_⟩
  cases hm

/-- `_validate_input_data` passes iff the claim-side numeric conditions
and the string-type conditions all hold. -/
theorem validations_ok_iff (req : List JsonRecord) :
    (validateAll validations req).isOk = true ↔
      (specNumericsOk req = true ∧ specStringsOk req = true) := by
  rw [validateAll_isOk_iff]
  simp only [validations, List.forall_mem_cons, List.not_mem_nil,
    false_implies, implies_true, and_true]
  simp only [checkColumn_num_iff, checkColumn_str_iff,
    Option.some.injEq, forall_eq']
  simp only [forall_option_none_imp, and_true, true_and]
  simp only [specNumericsOk, specStringsOk, Bool.and_eq_true]
  tauto

/-- C10 amended: `input_fn` succeeds iff the content type is JSON, no
required feature column is missing, every numeric feature is of
numeric type and within its range, AND gender and location are
strings; on success it returns exactly the ten required feature
columns. (Unknown gender strings are accepted — only the string type
matters for gender.) -/
theorem c10_input_validation (req : List JsonRecord) (ct : String) :
    ((input_fn req ct).isOk = true ↔
      (ct = "application/json" ∧
        (∀ f ∈ requiredRawFeatures, hasColumn req f = true) ∧
        specNumericsOk req = true ∧ specStringsOk req = true)) ∧
    (∀ out, input_fn req ct = Except.ok out →
      out = req.map projectRow ∧
        ∀ o ∈ out, o.map Prod.fst = requiredRawFeatures) := by
  by_cases hct : ct = "application/json"
  · subst hct
    unfold input_fn
    rw [if_pos rfl]
    by_cases hm : missingFeatures req = []
    · rw [if_neg (by simp [hm])]
      have hfeat : ∀ f ∈ requiredRawFeatures, hasColumn req f = true := by
        intro f hf
        have h2 := List.filter_eq_nil_iff.mp hm f hf
        simpa using h2
      constructor
      · cases hv : validateAll validations req with
        | ok u =>
          have hok : (validateAll validations req).isOk = true := by
            rw [hv]; rfl
          rw [validations_ok_iff] at hok
          exact iff_of_true rfl ⟨rfl, hfeat, hok.1, hok.2⟩
        | error e =>
          apply iff_of_false
          · intro hfalse
            exact Bool.false_ne_true hfalse
          · rintro ⟨-, -, hnum, hstr⟩
            have hok : (validateAll validations req).isOk = true :=
              (validations_ok_iff req).mpr ⟨hnum, hstr⟩
            rw [hv] at hok
            exact Bool.false_ne_true hok
      · intro out hout
        cases hv : validateAll validations req with
        | ok u =>
          rw [hv] at hout
          have hout2 : Except.ok (req.map projectRow) = Except.ok out := hout
          cases hout2
          refine ⟨rfl, ?_⟩
          intro o ho
          obtain ⟨row, _, hor⟩ := List.mem_map.mp ho
          subst hor
          unfold projectRow
          rw [List.map_map,
            show (Prod.fst ∘ fun f : String => (f, getVal row f)) = id from
              rfl,
            List.map_id]
        | error e =>
          rw [hv] at hout
          cases hout
    · rw [if_pos hm]
      constructor
      · apply iff_of_false
        · intro h
          exact Bool.false_ne_true h
        · rintro ⟨-, hfeat, -⟩
          apply hm
          apply List.filter_eq_nil_iff.mpr
          intro f hf
          simp [hfeat f hf]
      · intro out hout
        cases hout
  · unfold input_fn
    rw [if_neg hct]
    constructor
    · apply iff_of_false
      · intro h
        exact Bool.false_ne_true h
      · rintro ⟨hc, -⟩
        exact hct hc
    · intro out hout
      cases hout

/-- A request whose ten features are all present and whose numeric
features are all of numeric type and in range, but whose gender is a
number. -/
def reqBad : List JsonRecord :=
  [[("age", JsonVal.num 35), ("session_count", JsonVal.num 20),
    ("avg_session_duration", JsonVal.num 450),
    ("page_views", JsonVal.num 35), ("purchase_history", JsonVal.num 5),
    ("total_spent", JsonVal.num 250), ("engagement_score", JsonVal.num 1),
    ("historical_conversion_rate", JsonVal.num 0),
    ("gender", JsonVal.num 3), ("location", JsonVal.str "US")]]

/-- C10 counterexample: `reqBad` satisfies every raising condition the
claim lists negatively — the content type is JSON, no required feature
is missing, every numeric feature is numeric and in range — so the
claim says `input_fn` returns a DataFrame; but the code raises a
ValueError because gender is not a string. -/
theorem c10_counterexample :
    (∀ f ∈ requiredRawFeatures, hasColumn reqBad f = true) ∧
      specNumericsOk reqBad = true ∧
      input_fn reqBad "application/json" =
        Except.error "Invalid data type for gender" := by
  refine ⟨by decide, by decide, by rfl⟩

/-- A valid request whose gender is an unknown string: accepted. -/
def reqGood : List JsonRecord :=
  [[("age", JsonVal.num 35), ("session_count", JsonVal.num 20),
    ("avg_session_duration", JsonVal.num 450),
    ("page_views", JsonVal.num 35), ("purchase_history", JsonVal.num 5),
    ("total_spent", JsonVal.num 250), ("engagement_score", JsonVal.num 1),
    ("historical_conversion_rate", JsonVal.num 0),
    ("gender", JsonVal.str "unknown_gender"),
    ("location", JsonVal.str "US")]]

/-- Witness for C10's amended theorem: a concrete request with an
unknown gender string parses successfully into exactly the ten
required columns. -/
theorem c10_input_validation_witness :
    reqGood.map projectRow = reqGood.map projectRow ∧
      ∀ o ∈ reqGood.map projectRow, o.map Prod.fst = requiredRawFeatures :=
  (c10_input_validation reqGood "application/json").2
    (reqGood.map projectRow) (by rfl)

end DataPlatform
